import Mathlib

/-!
Shallow embedding of the QueryLite natural-language query execution pipeline
(`backend/app/routers/query.py` and the services it calls), together with
theorems checking the specification's claims against the code.

Conventions:
* Python scalar values appearing in result rows are modelled by `PyVal`;
  numeric magnitudes use `ℚ` (exact arithmetic on the small concrete inputs
  the claims mention).
* A result row (`dict[str, Any]`) is an association list with unique keys;
  `rowGet` models `row.get(col)` (absent key ↦ `None`).
* External collaborators (sqlparse, the LLM provider, the database engine,
  Redis, md5) are oracles passed in as explicit parameters; everything the
  repository's own code computes is embedded directly.
-/

/-- Python scalar values occurring in query result rows. -/
inductive PyVal where
  | vInt (n : ℤ)
  | vFloat (q : ℚ)
  | vDecimal (q : ℚ)
  | vStr (s : String)
  | vDate
  | vDatetime
  | vNone
  | vOther
  deriving DecidableEq, Repr

/-- A result row: `dict[column name, value]` as an association list. -/
def Row : Type := List (String × PyVal)

instance : DecidableEq Row := inferInstanceAs (DecidableEq (List (String × PyVal)))

instance : Repr Row := inferInstanceAs (Repr (List (String × PyVal)))

/-- `row.get(col)`: first binding of `col`, defaulting to Python `None`. -/
def rowGet (row : Row) (col : String) : PyVal :=
  match row.find? (fun p => p.1 = col) with
  | some p => p.2
  | none => PyVal.vNone

/-- Does the character list `s` start with the character list `pat`? -/
def charsStartWith : List Char → List Char → Bool
  | _, [] => true
  | [], _ :: _ => false
  | c :: cs, p :: ps => (c = p) && charsStartWith cs ps

/-- Does the character list `s` contain the character list `pat` as a
contiguous run?  Models Python's `pat in s`. -/
def charsContain (s pat : List Char) : Bool :=
  match s with
  | [] => pat.isEmpty
  | _ :: rest => charsStartWith s pat || charsContain rest pat

/-- Python's substring test `pat in s`. -/
def strContains (s pat : String) : Bool :=
  charsContain s.data pat.data

/-- Python's `s.startswith(pat)`. -/
def strStartsWith (s pat : String) : Bool :=
  charsStartWith s.data pat.data

/-- Python's `s.lower()` (ASCII, which covers every identifier involved). -/
def strLower (s : String) : String := String.mk (s.data.map Char.toLower)

/-- Python's `s.upper()`. -/
def strUpper (s : String) : String := String.mk (s.data.map Char.toUpper)

/-- Python's `s.strip()`: drop leading and trailing whitespace. -/
def strTrim (s : String) : String :=
  String.mk (((s.data.dropWhile Char.isWhitespace).reverse.dropWhile Char.isWhitespace).reverse)

/-- `ChartRecommendation` (backend/app/models/schemas.py): chart kind plus
up to four column-role assignments. -/
structure ChartRecommendation where
  chart_type : String
  x_column : Option String := none
  y_column : Option String := none
  category_column : Option String := none
  value_column : Option String := none
  deriving DecidableEq, Repr

/-- Keyword list used when classifying a string-valued column as date-like
(`recommend_chart_type`, column-type sampling loop). -/
def classifyTimeKeywords : List String := ["date", "time", "month", "year", "day", "ts"]

/-- Keyword list used by the area-chart check on the text column inside the
two-column branch of `recommend_chart_type`. -/
def areaTimeKeywords : List String :=
  ["date", "time", "month", "year", "day", "week", "ts", "at"]

/-- Column classification produced by the sampling loop. -/
inductive ColKind where
  | numeric
  | dateCol
  | textCol
  deriving DecidableEq, Repr

/-- The sampling loop of `QueryExecutor.recommend_chart_type`: collect the
non-`None` values of `col` over the sample; an empty list leaves the column
unclassified, otherwise the first value's Python type decides. -/
def classifyCol (sample : List Row) (col : String) : Option ColKind :=
  let values := (sample.map (fun row => rowGet row col)).filter (fun v => v ≠ PyVal.vNone)
  match values.head? with
  | none => none
  | some v =>
    match v with
    | .vInt _ => some .numeric
    | .vFloat _ => some .numeric
    | .vDecimal _ => some .numeric
    | .vDate => some .dateCol
    | .vDatetime => some .dateCol
    | .vStr _ =>
        if classifyTimeKeywords.any (fun kw => strContains (strLower col) kw)
        then some .dateCol else some .textCol
    | _ => some .textCol

/-- The proportion total of the donut check:
`sum(row.get(num_col, 0) for row in results if isinstance(row.get(num_col), (int, float)))`.
Note `Decimal` values are *not* `int` or `float` and are skipped. -/
def donutTotal (results : List Row) (num_col : String) : ℚ :=
  (results.filterMap (fun row =>
    match rowGet row num_col with
    | .vInt n => some (n : ℚ)
    | .vFloat q => some q
    | _ => none)).sum

/-- The `len(columns) == 2` branch of `recommend_chart_type`; `none` means the
branch falls through to the generic multi-column logic. -/
def twoColDecision (results : List Row) (numeric_cols text_cols date_cols : List String) :
    Option ChartRecommendation :=
  match numeric_cols, text_cols with
  | [num_col], [txt_col] =>
      if (Rat.divInt 99 100 ≤ donutTotal results num_col ∧
            donutTotal results num_col ≤ Rat.divInt 101 100) ∨
         ((99 : ℚ) ≤ donutTotal results num_col ∧ donutTotal results num_col ≤ 101) then
        some { chart_type := "donut", category_column := some txt_col, value_column := some num_col }
      else if areaTimeKeywords.any (fun kw => strContains (strLower txt_col) kw) then
        some { chart_type := "area", x_column := some txt_col, y_column := some num_col }
      else
        some { chart_type := "bar", x_column := some txt_col, y_column := some num_col }
  | _, _ =>
      match date_cols, numeric_cols with
      | [d], [n] => some { chart_type := "area", x_column := some d, y_column := some n }
      | _, _ => none

/-- The trailing generic logic of `recommend_chart_type`
(`if numeric_cols and (text_cols or date_cols): ...` else table). -/
def multiColDecision (numeric_cols text_cols date_cols : List String) : ChartRecommendation :=
  match numeric_cols with
  | [] => { chart_type := "table" }
  | n :: _ =>
    match date_cols with
    | d :: _ => { chart_type := "line", x_column := some d, y_column := some n }
    | [] =>
      match text_cols with
      | t :: _ => { chart_type := "bar", x_column := some t, y_column := some n }
      | [] => { chart_type := "table" }

/-- Column names of a result set as the code sees them:
`list(results[0].keys())`. -/
def columnsOf (results : List Row) : List String :=
  match results with
  | [] => []
  | first :: _ => first.map Prod.fst

/-- The sampled rows: `results[:min(10, len(results))]`. -/
def chartSample (results : List Row) : List Row :=
  results.take (Nat.min 10 results.length)

/-- `numeric_cols`, in column order. -/
def numericColsOf (results : List Row) : List String :=
  (columnsOf results).filter
    (fun c => classifyCol (chartSample results) c = some ColKind.numeric)

/-- `date_cols`, in column order. -/
def dateColsOf (results : List Row) : List String :=
  (columnsOf results).filter
    (fun c => classifyCol (chartSample results) c = some ColKind.dateCol)

/-- `text_cols`, in column order. -/
def textColsOf (results : List Row) : List String :=
  (columnsOf results).filter
    (fun c => classifyCol (chartSample results) c = some ColKind.textCol)

/-- `QueryExecutor.recommend_chart_type`. -/
def recommend_chart_type (results : List Row) : ChartRecommendation :=
  if results = [] then { chart_type := "table" }
  else if (columnsOf results).length < 2 then { chart_type := "table" }
  else if (columnsOf results).length = 2 then
    match twoColDecision results (numericColsOf results) (textColsOf results)
        (dateColsOf results) with
    | some r => r
    | none =>
        multiColDecision (numericColsOf results) (textColsOf results) (dateColsOf results)
  else
    multiColDecision (numericColsOf results) (textColsOf results) (dateColsOf results)

/-- All column names a recommendation assigns to a role. -/
def roleCols (r : ChartRecommendation) : List String :=
  r.x_column.toList ++ r.y_column.toList ++ r.category_column.toList ++ r.value_column.toList

/-! ## Safety Gate and executor-level validation -/

/-- Keyword denylist of `is_safe_sql` (backend/app/middleware/read_only_enforcer.py). -/
def forbiddenWords : List String :=
  ["DROP", "DELETE", "UPDATE", "INSERT", "TRUNCATE", "ALTER", "GRANT", "REVOKE"]

/-- `is_safe_sql(sql)` (read_only_enforcer.py).  `parse` is the sqlparse
oracle: the list of statement types `sqlparse.parse(sql)` yields. -/
def is_safe_sql (parse : String → List String) (sql : String) : Bool :=
  let stmts := parse sql
  if stmts.isEmpty then false
  else if stmts.any (fun t => t ≠ "SELECT") then false
  else
    let sql_upper := strUpper sql
    forbiddenWords.all (fun w =>
      !(strContains (" " ++ sql_upper ++ " ") (" " ++ w ++ " ") || strStartsWith sql_upper w))

/-- Keyword denylist inside `QueryExecutor.execute_query`. -/
def dangerousPatterns : List String :=
  ["DROP", "DELETE", "UPDATE", "INSERT", "ALTER", "TRUNCATE", "CREATE"]

/-- The dangerous-pattern scan of `QueryExecutor.execute_query`
(`sql_upper = sql.strip().upper()`; first matching pattern raises). -/
def dangerousCheck (sql : String) : Option String :=
  let sql_upper := strUpper (strTrim sql)
  (dangerousPatterns.find? (fun p =>
      strContains (" " ++ sql_upper ++ " ") (" " ++ p ++ " ") || strStartsWith sql_upper p)).map
    (fun p => "Dangerous SQL pattern detected: " ++ p)

/-- The validation prefix of `QueryExecutor.execute_query` (lines 89-103):
parse, require the first statement to be a SELECT, then the dangerous-pattern
scan.  `some msg` models a raised `SQLSyntaxError(msg)`. -/
def execute_query_check (stmtTypes : List String) (sql : String) : Option String :=
  match stmtTypes with
  | [] => some "Invalid SQL query"
  | t :: _ =>
      if t ≠ "SELECT" then some "Only SELECT statements are allowed"
      else dangerousCheck sql

/-- Outcome of dispatching a query to the database engine. -/
inductive ExecOutcome where
  | ok (rows : List Row) (timeMs : ℚ)
  | err (msg : String)
  deriving DecidableEq, Repr

/-- `QueryExecutor.execute_query`: run the validation prefix, then dispatch to
the engine (an oracle).  The `Bool` records whether the engine was reached. -/
def executeQueryM (parse : String → List String) (engine : ExecOutcome) (sql : String) :
    ExecOutcome × Bool :=
  match execute_query_check (parse sql) sql with
  | some e => (ExecOutcome.err e, false)
  | none => (engine, true)

/-! ## Result cache -/

/-- `RedisCacheService._generate_key` (cache_service.py): a deterministic key
from the data-source identity and the md5 of the trimmed query text.  `md5hex`
is the hashlib oracle. -/
def generate_key (md5hex : String → String) (data_source_id sql : String) : String :=
  "query_cache:" ++ data_source_id ++ ":" ++ md5hex (strTrim sql)

/-! ## QueryExecutor construction (Python keyword-argument binding) -/

/-- The parameters of `QueryExecutor.__init__` after `self`, with their
required/optional status: `connection_string` (required), `data_source_id`
(optional). -/
def qeInitParams : List (String × Bool) :=
  [("connection_string", true), ("data_source_id", false)]

/-- Python call binding: does a call with `npos` positional arguments and the
given keyword-argument names bind against `params` without a `TypeError`? -/
def callBindsOk (params : List (String × Bool)) (npos : Nat) (kwargs : List String) : Bool :=
  decide (npos ≤ params.length) &&
  kwargs.all (fun k => (params.map Prod.fst).contains k) &&
  kwargs.all (fun k => !((params.take npos).map Prod.fst).contains k) &&
  (List.range params.length).all (fun i =>
    match params.get? i with
    | some (n, req) => !req || decide (i < npos) || kwargs.contains n
    | none => true)

/-- The `QueryExecutor(...)` construction the router performs for each
data-source type (query.py lines 80-99): number of positional arguments and
keyword-argument names. -/
def executorCtorCall (dsType : String) : Nat × List String :=
  if dsType = "duckdb" then
    (0, ["ds_type", "file_path", "data_source_id"])
  else if dsType = "bigquery" ∨ dsType = "snowflake" then
    (0, ["ds_type", "config", "data_source_id"])
  else
    (1, ["ds_type", "data_source_id", "config"])

/-! ## The synchronous query pipeline (execute_natural_language_query) -/

/-- The configuration values the handler reads (app/config.py). -/
structure Settings where
  enforce_read_only : Bool
  confidence_threshold : ℚ
  enable_pii_masking : Bool

/-- `SQLGenerationResult` (schemas.py): the Orchestrator's candidate query. -/
structure SQLGenerationResult where
  sql_query : String
  explanation : String
  confidence : ℚ
  token_usage : Option Nat := none
  deriving DecidableEq

/-- `QueryResponse` (schemas.py), restricted to the fields the handler sets. -/
structure QueryResponseM where
  sql_query : String
  explanation : String
  results : List Row
  row_count : Nat
  chart_recommendation : ChartRecommendation
  execution_time_ms : ℚ
  confidence : ℚ
  requires_confirmation : Bool := false
  refinement_suggestion : Option String := none
  job_id : Option String := none
  status : String := "completed"
  is_cached : Bool := false
  is_healed : Bool := false
  original_error : Option String := none
  deriving DecidableEq

/-- Observable effects of one request, in order of occurrence per list. -/
structure Trace where
  auditActions : List String := []
  execCalls : List String := []
  engineDispatches : List String := []
  healerCalls : List String := []
  cacheSets : List String := []
  bgTasks : List String := []
  deriving DecidableEq

/-- What the handler returns: a `QueryResponse`, a raised `HTTPException`, or
a plain Python exception that the trailing `except Exception` turns into a
500 `HTTPException`. -/
inductive PipelineResult where
  | response (r : QueryResponseM)
  | httpError (status : Nat) (detail : String)
  deriving DecidableEq

/-- The trailing `except Exception` handler (query.py lines 356-359). -/
def internalError (msg : String) : PipelineResult :=
  PipelineResult.httpError 500 ("Internal Server Error: " ++ msg)

/-- Environment of one request: request data, configuration, and the
behavior of every external collaborator, as oracles. -/
structure PipelineEnv where
  dsType : String
  dsId : String
  settings : Settings
  schemaInfo : String
  tableNames : List String
  llmConfigured : Bool
  sqlResult : SQLGenerationResult
  refineSuggestion : String
  parse : String → List String
  cacheGet : Option QueryResponseM
  runAsync : Bool
  jobId : String
  engine : Nat → ExecOutcome
  healer : String × String
  mask : List Row → List Row

/-- Masking step: `PIIMasker.mask_results(results, enabled=...)` returns its
input unchanged when masking is disabled or the result set is empty. -/
def applyMask (env : PipelineEnv) (rows : List Row) : List Row :=
  if env.settings.enable_pii_masking = false ∨ rows = [] then rows else env.mask rows

/-- The tail of the handler after a successful execution (query.py lines
265-353): PII masking, chart recommendation, audit, cache write, response. -/
def finishExecution (env : PipelineEnv) (sqlr : SQLGenerationResult) (rows : List Row)
    (timeMs : ℚ) (healed : Bool) (origErr : Option String) (t : Trace) :
    PipelineResult × Trace :=
  let results := applyMask env rows
  let chart := recommend_chart_type results
  (PipelineResult.response
      { sql_query := sqlr.sql_query, explanation := sqlr.explanation, results := results,
        row_count := results.length, chart_recommendation := chart,
        execution_time_ms := timeMs, confidence := sqlr.confidence,
        is_healed := healed, original_error := origErr },
   { t with auditActions := t.auditActions ++ ["query_complete"],
            cacheSets := t.cacheSets ++ [sqlr.sql_query] })

/-- The execution phase with self-healing (query.py lines 231-263): one
attempt, on failure one `query_healer.heal_query` call, and at most one
retry when the healed text is non-empty and differs from the failing one. -/
def runExecution (env : PipelineEnv) (t : Trace) : PipelineResult × Trace :=
  let sql0 := env.sqlResult.sql_query
  let a1 := executeQueryM env.parse (env.engine 0) sql0
  let t1 := { t with execCalls := t.execCalls ++ [sql0],
                     engineDispatches := t.engineDispatches ++ (if a1.2 then [sql0] else []) }
  match a1.1 with
  | ExecOutcome.ok rows timeMs => finishExecution env env.sqlResult rows timeMs false none t1
  | ExecOutcome.err e1 =>
    let fixed := env.healer.1
    let fixExpl := env.healer.2
    let t2 := { t1 with healerCalls := t1.healerCalls ++ [sql0] }
    if fixed ≠ "" ∧ fixed ≠ sql0 then
      let a2 := executeQueryM env.parse (env.engine 1) fixed
      let t3 := { t2 with execCalls := t2.execCalls ++ [fixed],
                          engineDispatches := t2.engineDispatches ++ (if a2.2 then [fixed] else []) }
      match a2.1 with
      | ExecOutcome.ok rows timeMs =>
          finishExecution env
            { env.sqlResult with
                sql_query := fixed,
                explanation := "Query was automatically fixed. Original error: " ++ e1 ++
                  ". \n\nFix: " ++ fixExpl }
            rows timeMs true (some e1) t3
      | ExecOutcome.err _ =>
          (PipelineResult.httpError 400
            ("Query failed and could not be auto-fixed. Error: " ++ e1), t3)
    else
      (PipelineResult.httpError 400 ("Database Error: " ++ e1), t2)

/-- The handler body after a successful `QueryExecutor` construction
(query.py lines 101-353).  `"query_request"` is audited before the body. -/
def pipeline (env : PipelineEnv) : PipelineResult × Trace :=
  let t0 : Trace := { auditActions := ["query_request"] }
  if env.tableNames = [] then
    (PipelineResult.httpError 400
      (if env.dsType ≠ "mongodb" then "No tables found in the database"
       else "No collections found in MongoDB"), t0)
  else if env.llmConfigured = false then
    (PipelineResult.httpError 503 "LLM service not configured", t0)
  else if env.sqlResult.sql_query = "" then
    (PipelineResult.httpError 400 ("LLM Error: " ++ env.sqlResult.explanation), t0)
  else if env.dsType ≠ "mongodb" ∧ env.settings.enforce_read_only = true ∧
          is_safe_sql env.parse env.sqlResult.sql_query = false then
    (PipelineResult.httpError 403 "Security Policy Violation: Only SELECT queries are allowed.",
     { t0 with auditActions := t0.auditActions ++ ["security_violation_blocked"] })
  else if env.dsType = "mongodb" then
    -- line 168 reads the local `settings`, which is assigned only inside the
    -- `if data_source.type != "mongodb"` branch: UnboundLocalError, turned
    -- into a 500 by the trailing `except Exception`.
    (internalError "UnboundLocalError: local variable settings referenced before assignment", t0)
  else if env.sqlResult.confidence < env.settings.confidence_threshold then
    (PipelineResult.response
      { sql_query := env.sqlResult.sql_query, explanation := env.sqlResult.explanation,
        results := [], row_count := 0, chart_recommendation := { chart_type := "table" },
        execution_time_ms := 0, confidence := env.sqlResult.confidence,
        requires_confirmation := true, refinement_suggestion := some env.refineSuggestion }, t0)
  else
    let t1 := { t0 with auditActions := t0.auditActions ++ ["query_execution"] }
    match env.cacheGet with
    | some cached =>
        (PipelineResult.response { cached with is_cached := true },
         { t1 with auditActions := t1.auditActions ++ ["query_cache_hit"] })
    | none =>
        if env.runAsync = true then
          (PipelineResult.response
            { sql_query := env.sqlResult.sql_query, explanation := env.sqlResult.explanation,
              results := [], row_count := 0, chart_recommendation := { chart_type := "table" },
              execution_time_ms := 0, confidence := env.sqlResult.confidence,
              job_id := some env.jobId, status := "processing" },
           { t1 with bgTasks := t1.bgTasks ++ [env.sqlResult.sql_query] })
        else
          runExecution env t1

/-- The whole handler, `QueryExecutor` construction included: the router's
constructor call binds against `QueryExecutor.__init__` or raises a
`TypeError`, which the trailing `except Exception` turns into a 500. -/
def fullPipeline (env : PipelineEnv) : PipelineResult × Trace :=
  let call := executorCtorCall env.dsType
  if callBindsOk qeInitParams call.1 call.2 then pipeline env
  else
    (internalError "TypeError: QueryExecutor() got an unexpected keyword argument",
     { auditActions := ["query_request"] })

/-! ## Schema relevance filtering (semantic_search.py / llm_service.py) -/

/-- One vector-store hit, reduced to the metadata fields the code reads. -/
structure SearchResult where
  element_type : String
  name : String
  deriving DecidableEq

/-- `SemanticSearch.search_relevant_schema`: embedding + vector search is an
oracle that either yields hits or raises; any raise is caught and turned
into `[]`. -/
def search_relevant_schema (searchOracle : Except String (List SearchResult)) :
    List SearchResult :=
  match searchOracle with
  | Except.ok rs => rs
  | Except.error _ => []

/-- The seen-set deduplication of `get_relevant_table_names`, preserving
first-occurrence order. -/
def dedupSeen : List String → List String → List String
  | [], _ => []
  | x :: xs, seen => if seen.contains x then dedupSeen xs seen else x :: dedupSeen xs (x :: seen)

/-- `SemanticSearch.get_relevant_table_names`. -/
def get_relevant_table_names (searchOracle : Except String (List SearchResult)) :
    List String :=
  let results := search_relevant_schema searchOracle
  let table_names := (results.filter (fun r => r.element_type = "table")).map (fun r => r.name)
  dedupSeen table_names []

/-- The schema-narrowing step of `LLMService.generate_sql` (lines 56-78):
the `(filtered_schema, filtered_tables)` pair ultimately passed to the
provider.  Mirrors the code, needle capitalization included. -/
def llmFilterSchema (searchOracle : Except String (List SearchResult))
    (schema_info : String) (table_names : List String) (hasDataSourceId : Bool) :
    String × List String :=
  if hasDataSourceId = false then (schema_info, table_names)
  else
    let relevant_tables := get_relevant_table_names searchOracle
    if relevant_tables = [] then (schema_info, table_names)
    else
      let schema_blocks := schema_info.splitOn "\n\n"
      let filtered_blocks := schema_blocks.filter (fun block =>
        relevant_tables.any (fun t => strContains (strLower block) ("Table: " ++ strLower t)))
      if filtered_blocks = [] then (schema_info, table_names)
      else (String.intercalate "\n\n" filtered_blocks, relevant_tables)

/-- The concrete rows of the spec's "bar" scenario:
`[{month: "Jan", revenue: 100}, {month: "Feb", revenue: 150}]`. -/
def monthRevenueRows : List Row :=
  [[("month", PyVal.vStr "Jan"), ("revenue", PyVal.vInt 100)],
   [("month", PyVal.vStr "Feb"), ("revenue", PyVal.vInt 150)]]

/-- Rows with a pure-`Decimal` value column summing to exactly 100. -/
def decimalShareRows : List Row :=
  [[("label", PyVal.vStr "A"), ("amount", PyVal.vDecimal 40)],
   [("label", PyVal.vStr "B"), ("amount", PyVal.vDecimal 60)]]

/-! ## Theorems about the pipeline -/

/-- Preconditions under which the handler reaches the cache lookup: tables
exist, the provider is configured, a candidate was produced, the Safety Gate
does not block, the backend is not mongodb (where the handler crashes on the
unbound `settings` local first), and the confidence gate passes. -/
def gatePasses (env : PipelineEnv) : Prop :=
  env.tableNames ≠ [] ∧ env.llmConfigured = true ∧ env.sqlResult.sql_query ≠ "" ∧
  ¬(env.settings.enforce_read_only = true ∧
      is_safe_sql env.parse env.sqlResult.sql_query = false) ∧
  env.dsType ≠ "mongodb" ∧
  ¬ env.sqlResult.confidence < env.settings.confidence_threshold

instance (env : PipelineEnv) : Decidable (gatePasses env) := by
  unfold gatePasses
  infer_instance

/-- A fully concrete environment used to instantiate the claim theorems. -/
def baseEnv : PipelineEnv where
  dsType := "postgresql"
  dsId := "ds-1"
  settings :=
    { enforce_read_only := true, confidence_threshold := Rat.divInt 7 10,
      enable_pii_masking := false }
  schemaInfo := "Table: users"
  tableNames := ["users"]
  llmConfigured := true
  sqlResult :=
    { sql_query := "SELECT 1", explanation := "count", confidence := Rat.divInt 9 10 }
  refineSuggestion := "try rephrasing"
  parse := fun _ => ["SELECT"]
  cacheGet := none
  runAsync := false
  jobId := "job-1"
  engine := fun _ => ExecOutcome.ok [] 1
  healer := ("", "")
  mask := fun rows => rows

/-- Environment whose engine fails both attempts with distinct errors and
whose healer proposes a different query. -/
def healFailEnv : PipelineEnv :=
  { baseEnv with
      engine := fun n =>
        if n = 0 then ExecOutcome.err "ERR1 original" else ExecOutcome.err "ERR2 retry",
      healer := ("SELECT 2", "added missing table") }

/-- A mongodb request whose candidate has confidence 1/2, below the 7/10
threshold. -/
def mongoLowConfEnv : PipelineEnv :=
  { baseEnv with
      dsType := "mongodb"
      sqlResult := { baseEnv.sqlResult with confidence := Rat.divInt 1 2 } }

/-- A postgresql request whose candidate has confidence 1/2, below the 7/10
threshold. -/
def pgLowConfEnv : PipelineEnv :=
  { baseEnv with
      sqlResult := { baseEnv.sqlResult with confidence := Rat.divInt 1 2 } }

/-- A postgresql request whose candidate has confidence exactly equal to the
7/10 threshold. -/
def pgEqConfEnv : PipelineEnv :=
  { baseEnv with
      sqlResult := { baseEnv.sqlResult with confidence := Rat.divInt 7 10 } }

/-- A cached response used by the C8 witness. -/
def cachedResp : QueryResponseM where
  sql_query := "SELECT 1"
  explanation := "count"
  results := [[("n", PyVal.vInt 1)]]
  row_count := 1
  chart_recommendation := { chart_type := "table" }
  execution_time_ms := 3
  confidence := Rat.divInt 9 10

/-! ## Theorems about the chart recommender -/

/-- Every recommendation produced by the two-column branch has a chart kind
from the closed set and draws its role columns from the classified lists. -/
theorem twoColDecision_spec (results : List Row) (nc tc dc : List String)
    (r : ChartRecommendation) (h : twoColDecision results nc tc dc = some r) :
    r.chart_type ∈ ["bar", "line", "donut", "area", "table"] ∧
    ∀ c ∈ roleCols r, c ∈ nc ∨ c ∈ tc ∨ c ∈ dc := by
  unfold twoColDecision at h
  split at h
  next num_col txt_col =>
    split at h
    · cases h
      refine ⟨by simp, ?_⟩
      intro c hc
      simp only [roleCols, Option.toList, List.append_nil, List.nil_append,
        List.mem_append, List.mem_singleton] at hc
      rcases hc with h | h <;> simp [h]
    · split at h
      · cases h
        refine ⟨by simp, ?_⟩
        intro c hc
        simp only [roleCols, Option.toList, List.append_nil, List.nil_append,
          List.mem_append, List.mem_singleton] at hc
        rcases hc with h | h <;> simp [h]
      · cases h
        refine ⟨by simp, ?_⟩
        intro c hc
        simp only [roleCols, Option.toList, List.append_nil, List.nil_append,
          List.mem_append, List.mem_singleton] at hc
        rcases hc with h | h <;> simp [h]
  next =>
    split at h
    next d n =>
      cases h
      refine ⟨by simp, ?_⟩
      intro c hc
      simp only [roleCols, Option.toList, List.append_nil, List.nil_append,
        List.mem_append, List.mem_singleton] at hc
      rcases hc with h | h <;> simp [h]
    next => exact absurd h (by simp)

/-- Same property for the generic multi-column fallback. -/
theorem multiColDecision_spec (nc tc dc : List String) :
    (multiColDecision nc tc dc).chart_type ∈ ["bar", "line", "donut", "area", "table"] ∧
    ∀ c ∈ roleCols (multiColDecision nc tc dc), c ∈ nc ∨ c ∈ tc ∨ c ∈ dc := by
  unfold multiColDecision
  rcases nc with _ | ⟨n, nc'⟩
  · simp [roleCols]
  · rcases dc with _ | ⟨d, dc'⟩
    · rcases tc with _ | ⟨t, tc'⟩
      · simp [roleCols]
      · refine ⟨by simp, ?_⟩
        intro c hc
        simp only [roleCols, Option.toList, List.append_nil, List.nil_append,
          List.mem_append, List.mem_singleton] at hc
        rcases hc with h | h <;> simp [h]
    · refine ⟨by simp, ?_⟩
      intro c hc
      simp only [roleCols, Option.toList, List.append_nil, List.nil_append,
        List.mem_append, List.mem_singleton] at hc
      rcases hc with h | h <;> simp [h]

/-- If every row's value at `col` is a `Decimal`, the donut proportion total
(which only sums `int`/`float` values) is `0`. -/
theorem donutTotal_all_decimal (results : List Row) (col : String)
    (h : ∀ row ∈ results, ∃ q, rowGet row col = PyVal.vDecimal q) :
    donutTotal results col = 0 := by
  unfold donutTotal
  have he : (results.filterMap (fun row =>
      match rowGet row col with
      | PyVal.vInt n => some (n : ℚ)
      | PyVal.vFloat q => some q
      | _ => none)) = [] := by
    rw [List.filterMap_eq_nil_iff]
    intro row hr
    obtain ⟨q, hq⟩ := h row hr
    simp [hq]
  rw [he]
  simp

/-- Claim C7: for every non-empty result set with at least two columns,
`recommend_chart_type` returns a chart kind from the closed set
{bar, line, donut, area, table}, and every column role it assigns names a
column of the input. -/
theorem c7_chart_kind_closed_and_roles_present (results : List Row)
    (h1 : results ≠ []) (h2 : 2 ≤ (columnsOf results).length) :
    (recommend_chart_type results).chart_type ∈ ["bar", "line", "donut", "area", "table"] ∧
    ∀ c ∈ roleCols (recommend_chart_type results), c ∈ columnsOf results := by
  have sub : ∀ c, (c ∈ numericColsOf results ∨ c ∈ textColsOf results ∨
      c ∈ dateColsOf results) → c ∈ columnsOf results := by
    intro c hc
    rcases hc with h | h | h
    · exact List.mem_of_mem_filter h
    · exact List.mem_of_mem_filter h
    · exact List.mem_of_mem_filter h
  unfold recommend_chart_type
  rw [if_neg h1, if_neg (by omega)]
  split
  · split
    next r heq =>
      obtain ⟨hk, hr⟩ := twoColDecision_spec results _ _ _ r heq
      exact ⟨hk, fun c hc => sub c (hr c hc)⟩
    next =>
      obtain ⟨hk, hr⟩ := multiColDecision_spec (numericColsOf results) (textColsOf results)
        (dateColsOf results)
      exact ⟨hk, fun c hc => sub c (hr c hc)⟩
  · obtain ⟨hk, hr⟩ := multiColDecision_spec (numericColsOf results) (textColsOf results)
      (dateColsOf results)
    exact ⟨hk, fun c hc => sub c (hr c hc)⟩

/-- Witness for C7 at the concrete rows of the spec's bar-chart scenario. -/
theorem c7_chart_kind_closed_and_roles_present_witness :
    ([[("city", PyVal.vStr "Oslo"), ("pop", PyVal.vInt 700)]] : List Row) ≠ [] ∧
    2 ≤ (columnsOf [[("city", PyVal.vStr "Oslo"), ("pop", PyVal.vInt 700)]]).length ∧
    ((recommend_chart_type [[("city", PyVal.vStr "Oslo"), ("pop", PyVal.vInt 700)]]).chart_type ∈
        ["bar", "line", "donut", "area", "table"] ∧
      ∀ c ∈ roleCols (recommend_chart_type [[("city", PyVal.vStr "Oslo"), ("pop", PyVal.vInt 700)]]),
        c ∈ columnsOf [[("city", PyVal.vStr "Oslo"), ("pop", PyVal.vInt 700)]]) :=
  ⟨by decide, by decide,
    c7_chart_kind_closed_and_roles_present _ (by decide) (by decide)⟩

/-- Claim C6, counterexample: on the month/revenue rows the recommended chart
kind is not `bar` — the string column "month" contains the time keyword
`month`, so the sampling loop classifies it as a date column. -/
theorem c6_counterexample_not_bar :
    (recommend_chart_type monthRevenueRows).chart_type ≠ "bar" := by
  decide

/-- Claim C6 (amended): on the month/revenue rows `recommend_chart_type`
returns the `area` kind with `x_column = month` and `y_column = revenue`,
via the two-column date + numeric rule. -/
theorem c6_amended_area_month_revenue :
    recommend_chart_type monthRevenueRows =
      { chart_type := "area", x_column := some "month", y_column := some "revenue" } := by
  decide

/-- Reduction of the two-column branch when the proportion total is `0`:
the donut check cannot pass, so the outcome is the area/bar alternative. -/
theorem twoColDecision_total_zero (results : List Row) (n t : String) (dc : List String)
    (htot : donutTotal results n = 0) :
    twoColDecision results [n] [t] dc =
      (if (areaTimeKeywords.any fun kw => strContains (strLower t) kw) = true
       then some { chart_type := "area", x_column := some t, y_column := some n }
       else some { chart_type := "bar", x_column := some t, y_column := some n }) := by
  simp only [twoColDecision, htot]
  rw [if_neg (by decide)]

/-- Claim C10: in a two-column result whose numeric column holds only
`Decimal` values (and whose other column is text), the proportion total is
`0`, so the donut branch never fires — the outcome is `area` or `bar`. -/
theorem c10_decimal_defeats_donut (results : List Row) (num_col txt_col : String)
    (hne : results ≠ []) (hcols : (columnsOf results).length = 2)
    (hnc : numericColsOf results = [num_col])
    (htc : textColsOf results = [txt_col])
    (hdec : ∀ row ∈ results, ∃ q, rowGet row num_col = PyVal.vDecimal q) :
    (recommend_chart_type results).chart_type ≠ "donut" ∧
    ((recommend_chart_type results).chart_type = "area" ∨
      (recommend_chart_type results).chart_type = "bar") := by
  have htot : donutTotal results num_col = 0 := donutTotal_all_decimal results num_col hdec
  unfold recommend_chart_type
  rw [if_neg hne, if_neg (by omega), if_pos hcols, hnc, htc,
    twoColDecision_total_zero results num_col txt_col _ htot]
  by_cases hk : (areaTimeKeywords.any fun kw => strContains (strLower txt_col) kw) = true
  · rw [if_pos hk]
    exact ⟨show "area" ≠ "donut" by decide, Or.inl rfl⟩
  · rw [if_neg hk]
    exact ⟨show "bar" ≠ "donut" by decide, Or.inr rfl⟩

/-- Witness for C10 at rows whose Decimal values sum to exactly 100: no donut. -/
theorem c10_decimal_defeats_donut_witness :
    (recommend_chart_type decimalShareRows).chart_type ≠ "donut" ∧
    ((recommend_chart_type decimalShareRows).chart_type = "area" ∨
      (recommend_chart_type decimalShareRows).chart_type = "bar") :=
  c10_decimal_defeats_donut decimalShareRows "amount" "label" (by decide) (by decide)
    (by decide) (by decide)
    (by
      intro row hr
      simp only [decimalShareRows, List.mem_cons, List.not_mem_nil, or_false] at hr
      rcases hr with h | h
      · exact ⟨40, by rw [h]; decide⟩
      · exact ⟨60, by rw [h]; decide⟩)

/-- Under the gate preconditions, a cache hit ends the request immediately. -/
theorem pipeline_cache_hit (env : PipelineEnv) (cached : QueryResponseM)
    (hg : gatePasses env) (hc : env.cacheGet = some cached) :
    pipeline env =
      (PipelineResult.response { cached with is_cached := true },
       { auditActions := ["query_request", "query_execution", "query_cache_hit"] }) := by
  obtain ⟨h1, h2, h3, h4, h5, h6⟩ := hg
  simp only [pipeline]
  rw [if_neg h1, if_neg (by simp [h2]), if_neg h3,
    if_neg (fun hcon => h4 ⟨hcon.2.1, hcon.2.2⟩), if_neg h5, if_neg h6, hc]
  rfl

/-- Under the gate preconditions, a cache miss on a synchronous request
hands over to the execution phase with the audit-only trace. -/
theorem pipeline_exec_phase (env : PipelineEnv)
    (hg : gatePasses env) (hc : env.cacheGet = none) (ha : env.runAsync = false) :
    pipeline env =
      runExecution env { auditActions := ["query_request", "query_execution"] } := by
  obtain ⟨h1, h2, h3, h4, h5, h6⟩ := hg
  simp only [pipeline]
  rw [if_neg h1, if_neg (by simp [h2]), if_neg h3,
    if_neg (fun hcon => h4 ⟨hcon.2.1, hcon.2.2⟩), if_neg h5, if_neg h6, hc]
  rw [if_neg (by simp [ha])]
  rfl

/-- `finishExecution` never adds execution calls to the trace. -/
theorem finishExecution_execCalls (env : PipelineEnv) (sqlr : SQLGenerationResult)
    (rows : List Row) (timeMs : ℚ) (healed : Bool) (origErr : Option String) (t : Trace) :
    (finishExecution env sqlr rows timeMs healed origErr t).2.execCalls = t.execCalls := rfl

/-- The execution phase performs at most two execution calls beyond the
incoming trace. -/
theorem runExecution_execCalls_le (env : PipelineEnv) (t : Trace) :
    (runExecution env t).2.execCalls.length ≤ t.execCalls.length + 2 := by
  simp only [runExecution]
  split
  · simp [finishExecution_execCalls]
  · split
    · split
      · simp [finishExecution_execCalls, List.length_append]
      · simp [List.length_append]
    · simp

/-- No request performs more than two execution calls. -/
theorem pipeline_execCalls_le_two (env : PipelineEnv) :
    (pipeline env).2.execCalls.length ≤ 2 := by
  simp only [pipeline]
  split
  · simp
  · split
    · simp
    · split
      · simp
      · split
        · simp
        · split
          · simp
          · split
            · simp
            · split
              · simp
              · split
                · simp
                · simpa using runExecution_execCalls_le env
                    { auditActions := ["query_request", "query_execution"] }

/-- Claim C1: for every data-source kind the synchronous endpoint handles,
the router's `QueryExecutor(...)` call passes keyword arguments that
`QueryExecutor.__init__` (parameters: `connection_string`,
`data_source_id`) does not accept, so construction raises a `TypeError`
and the request dies with a 500 before any schema introspection,
generation, validation, execution or caching effect. -/
theorem c1_executor_construction_typeerror (env : PipelineEnv)
    (h : env.dsType ∈ ["duckdb", "bigquery", "snowflake", "postgresql", "mysql", "mongodb"]) :
    callBindsOk qeInitParams (executorCtorCall env.dsType).1 (executorCtorCall env.dsType).2 =
      false ∧
    fullPipeline env =
      (internalError "TypeError: QueryExecutor() got an unexpected keyword argument",
       { auditActions := ["query_request"] }) := by
  have hko : callBindsOk qeInitParams (executorCtorCall env.dsType).1
      (executorCtorCall env.dsType).2 = false := by
    simp only [List.mem_cons, List.mem_singleton, List.not_mem_nil, or_false] at h
    rcases h with h | h | h | h | h | h <;> rw [h] <;> decide
  refine ⟨hko, ?_⟩
  simp only [fullPipeline]
  rw [if_neg (by simp [hko])]

/-- Witness for C1 at the duckdb branch. -/
theorem c1_executor_construction_typeerror_witness :
    callBindsOk qeInitParams
        (executorCtorCall ({ baseEnv with dsType := "duckdb" } : PipelineEnv).dsType).1
        (executorCtorCall ({ baseEnv with dsType := "duckdb" } : PipelineEnv).dsType).2 = false ∧
    fullPipeline { baseEnv with dsType := "duckdb" } =
      (internalError "TypeError: QueryExecutor() got an unexpected keyword argument",
       { auditActions := ["query_request"] }) :=
  c1_executor_construction_typeerror { baseEnv with dsType := "duckdb" } (by decide)

/-- Claim C2: when read-only enforcement is on, the backend is SQL, and
`is_safe_sql` rejects the candidate, the handler raises the 403
policy-denial, audits the dedicated `security_violation_blocked` event
(distinct from the 400 execution-error paths), never calls
`execute_query`, never calls the healer, and writes nothing to the cache. -/
theorem c2_safety_gate_blocks_execution (env : PipelineEnv)
    (h1 : env.tableNames ≠ []) (h2 : env.llmConfigured = true)
    (h3 : env.sqlResult.sql_query ≠ "") (hm : env.dsType ≠ "mongodb")
    (he : env.settings.enforce_read_only = true)
    (hu : is_safe_sql env.parse env.sqlResult.sql_query = false) :
    pipeline env =
      (PipelineResult.httpError 403
        "Security Policy Violation: Only SELECT queries are allowed.",
       { auditActions := ["query_request", "security_violation_blocked"] }) ∧
    (pipeline env).2.execCalls = [] ∧
    (pipeline env).2.engineDispatches = [] ∧
    (pipeline env).2.healerCalls = [] ∧
    (pipeline env).2.cacheSets = [] ∧
    "security_violation_blocked" ∈ (pipeline env).2.auditActions := by
  have hmain : pipeline env =
      (PipelineResult.httpError 403
        "Security Policy Violation: Only SELECT queries are allowed.",
       { auditActions := ["query_request", "security_violation_blocked"] }) := by
    simp only [pipeline]
    rw [if_neg h1, if_neg (by simp [h2]), if_neg h3, if_pos ⟨hm, he, hu⟩]
    rfl
  exact ⟨hmain, by rw [hmain], by rw [hmain], by rw [hmain], by rw [hmain],
    by rw [hmain]; simp⟩

/-- Witness for C2: a parse oracle yielding no statements makes
`is_safe_sql` reject. -/
theorem c2_safety_gate_blocks_execution_witness :
    pipeline { baseEnv with parse := fun _ => [] } =
      (PipelineResult.httpError 403
        "Security Policy Violation: Only SELECT queries are allowed.",
       { auditActions := ["query_request", "security_violation_blocked"] }) ∧
    (pipeline { baseEnv with parse := fun _ => [] }).2.execCalls = [] ∧
    (pipeline { baseEnv with parse := fun _ => [] }).2.engineDispatches = [] ∧
    (pipeline { baseEnv with parse := fun _ => [] }).2.healerCalls = [] ∧
    (pipeline { baseEnv with parse := fun _ => [] }).2.cacheSets = [] ∧
    "security_violation_blocked" ∈
      (pipeline { baseEnv with parse := fun _ => [] }).2.auditActions :=
  c2_safety_gate_blocks_execution { baseEnv with parse := fun _ => [] }
    (by decide) rfl (by decide) (by decide) rfl rfl

/-- Claim C3: a synchronous request performs at most two execution calls —
the original attempt plus at most one retry, which happens only when the
healer returns a non-empty query different from the failing one — and a
failing retry is terminal (400, no further attempt). -/
theorem c3_at_most_two_execution_attempts (env : PipelineEnv) (e1 : String)
    (hg : gatePasses env) (hc : env.cacheGet = none) (ha : env.runAsync = false)
    (hf1 : (executeQueryM env.parse (env.engine 0) env.sqlResult.sql_query).1 =
      ExecOutcome.err e1) :
    (∀ e : PipelineEnv, (pipeline e).2.execCalls.length ≤ 2) ∧
    ((env.healer.1 = "" ∨ env.healer.1 = env.sqlResult.sql_query) →
      (pipeline env).2.execCalls = [env.sqlResult.sql_query] ∧
      (pipeline env).1 = PipelineResult.httpError 400 ("Database Error: " ++ e1)) ∧
    (env.healer.1 ≠ "" → env.healer.1 ≠ env.sqlResult.sql_query →
      (pipeline env).2.execCalls = [env.sqlResult.sql_query, env.healer.1] ∧
      ∀ e2, (executeQueryM env.parse (env.engine 1) env.healer.1).1 = ExecOutcome.err e2 →
        (pipeline env).1 = PipelineResult.httpError 400
          ("Query failed and could not be auto-fixed. Error: " ++ e1)) := by
  have hexec := pipeline_exec_phase env hg hc ha
  refine ⟨pipeline_execCalls_le_two, ?_, ?_⟩
  · intro hsame
    have hno : ¬(env.healer.1 ≠ "" ∧ env.healer.1 ≠ env.sqlResult.sql_query) := by
      rcases hsame with h | h
      · exact fun hcon => hcon.1 h
      · exact fun hcon => hcon.2 h
    rw [hexec]
    simp only [runExecution, hf1]
    rw [if_neg hno]
    exact ⟨rfl, rfl⟩
  · intro hne hdiff
    constructor
    · rw [hexec]
      simp only [runExecution, hf1]
      rw [if_pos ⟨hne, hdiff⟩]
      split
      · rw [finishExecution_execCalls]
        rfl
      · rfl
    · intro e2 hf2
      rw [hexec]
      simp only [runExecution, hf1, hf2]
      rw [if_pos ⟨hne, hdiff⟩]

/-- Witness for C3: engine always fails, healer differs — exactly the
original plus one retry, then a terminal 400 carrying the original error. -/
theorem c3_at_most_two_execution_attempts_witness :
    (∀ e : PipelineEnv, (pipeline e).2.execCalls.length ≤ 2) ∧
    ((healFailEnv.healer.1 = "" ∨ healFailEnv.healer.1 = healFailEnv.sqlResult.sql_query) →
      (pipeline healFailEnv).2.execCalls = [healFailEnv.sqlResult.sql_query] ∧
      (pipeline healFailEnv).1 =
        PipelineResult.httpError 400 ("Database Error: " ++ "ERR1 original")) ∧
    (healFailEnv.healer.1 ≠ "" → healFailEnv.healer.1 ≠ healFailEnv.sqlResult.sql_query →
      (pipeline healFailEnv).2.execCalls =
        [healFailEnv.sqlResult.sql_query, healFailEnv.healer.1] ∧
      ∀ e2, (executeQueryM healFailEnv.parse (healFailEnv.engine 1)
          healFailEnv.healer.1).1 = ExecOutcome.err e2 →
        (pipeline healFailEnv).1 = PipelineResult.httpError 400
          ("Query failed and could not be auto-fixed. Error: " ++ "ERR1 original")) :=
  c3_at_most_two_execution_attempts healFailEnv "ERR1 original"
    (by decide) rfl rfl (by decide)

/-- Claim C4, counterexample: when the retry also fails, the surfaced 400
detail carries only the original error; the healing attempt's error
("ERR2 retry") is absent from it, contradicting the claim that both error
contexts are surfaced. -/
theorem c4_counterexample_retry_error_not_surfaced :
    healFailEnv.engine 1 = ExecOutcome.err "ERR2 retry" ∧
    (pipeline healFailEnv).1 =
      PipelineResult.httpError 400
        "Query failed and could not be auto-fixed. Error: ERR1 original" ∧
    strContains "Query failed and could not be auto-fixed. Error: ERR1 original"
      "ERR2 retry" = false := by
  refine ⟨rfl, by decide, by decide⟩

/-- Claim C4 (amended): the healed candidate is re-validated only by
`execute_query`'s internal read-only check — when that check rejects it,
the engine is never dispatched for the retry — and a failing retry
surfaces a 400 whose detail contains the original error only. -/
theorem c4_amended_revalidation_and_original_error_only (env : PipelineEnv) (e1 : String)
    (hg : gatePasses env) (hc : env.cacheGet = none) (ha : env.runAsync = false)
    (hchk : execute_query_check (env.parse env.sqlResult.sql_query) env.sqlResult.sql_query =
      none)
    (heng : env.engine 0 = ExecOutcome.err e1)
    (hne : env.healer.1 ≠ "") (hdiff : env.healer.1 ≠ env.sqlResult.sql_query) :
    (∀ m, execute_query_check (env.parse env.healer.1) env.healer.1 = some m →
      (pipeline env).2.engineDispatches = [env.sqlResult.sql_query] ∧
      (pipeline env).1 = PipelineResult.httpError 400
        ("Query failed and could not be auto-fixed. Error: " ++ e1)) ∧
    (∀ e2, execute_query_check (env.parse env.healer.1) env.healer.1 = none →
      env.engine 1 = ExecOutcome.err e2 →
      (pipeline env).1 = PipelineResult.httpError 400
        ("Query failed and could not be auto-fixed. Error: " ++ e1)) := by
  have hexec := pipeline_exec_phase env hg hc ha
  have hf1 : executeQueryM env.parse (env.engine 0) env.sqlResult.sql_query =
      (ExecOutcome.err e1, true) := by
    simp only [executeQueryM, hchk, heng]
  constructor
  · intro m hm
    have hf2 : executeQueryM env.parse (env.engine 1) env.healer.1 =
        (ExecOutcome.err m, false) := by simp only [executeQueryM, hm]
    rw [hexec]
    simp only [runExecution, hf1]
    rw [if_pos ⟨hne, hdiff⟩]
    simp [hf2]
  · intro e2 hchk2 heng2
    have hf2 : executeQueryM env.parse (env.engine 1) env.healer.1 =
        (ExecOutcome.err e2, true) := by simp only [executeQueryM, hchk2, heng2]
    rw [hexec]
    simp only [runExecution, hf1]
    rw [if_pos ⟨hne, hdiff⟩]
    simp only [hf2]

/-- Witness for the amended C4 at the concrete double-failure environment. -/
theorem c4_amended_revalidation_and_original_error_only_witness :
    (∀ m, execute_query_check (healFailEnv.parse healFailEnv.healer.1)
        healFailEnv.healer.1 = some m →
      (pipeline healFailEnv).2.engineDispatches = [healFailEnv.sqlResult.sql_query] ∧
      (pipeline healFailEnv).1 = PipelineResult.httpError 400
        ("Query failed and could not be auto-fixed. Error: " ++ "ERR1 original")) ∧
    (∀ e2, execute_query_check (healFailEnv.parse healFailEnv.healer.1)
        healFailEnv.healer.1 = none →
      healFailEnv.engine 1 = ExecOutcome.err e2 →
      (pipeline healFailEnv).1 = PipelineResult.httpError 400
        ("Query failed and could not be auto-fixed. Error: " ++ "ERR1 original")) :=
  c4_amended_revalidation_and_original_error_only healFailEnv "ERR1 original"
    (by decide) rfl rfl (by decide) rfl (by decide) (by decide)

/-- Claim C5 (confidence gate): for a non-mongodb source, confidence
strictly below the threshold short-circuits into the zero-row
`requires_confirmation` response with a refinement suggestion and no
execution, and confidence exactly equal to the threshold proceeds to
execution; for a mongodb source, however, the gate is never reached — the
handler crashes on the unbound `settings` local and returns a 500. -/
theorem c5_confidence_gate_boundary_and_mongodb_crash :
    (pipeline mongoLowConfEnv).1 =
      internalError "UnboundLocalError: local variable settings referenced before assignment" ∧
    pipeline pgLowConfEnv =
      (PipelineResult.response
        { sql_query := "SELECT 1", explanation := "count", results := [], row_count := 0,
          chart_recommendation := { chart_type := "table" }, execution_time_ms := 0,
          confidence := Rat.divInt 1 2, requires_confirmation := true,
          refinement_suggestion := some "try rephrasing" },
       { auditActions := ["query_request"] }) ∧
    (pipeline pgEqConfEnv).2.execCalls = ["SELECT 1"] := by
  refine ⟨by decide, by decide, by decide⟩

/-- Claim C8: a cache hit returns the cached response marked
`is_cached = true`, and neither `execute_query` nor the healer runs and no
cache write happens for that request; the cache key is deterministic in the
data-source identity and the trimmed query text. -/
theorem c8_cache_hit_bypasses_execution (env : PipelineEnv) (cached : QueryResponseM)
    (hg : gatePasses env) (hc : env.cacheGet = some cached) :
    pipeline env =
      (PipelineResult.response { cached with is_cached := true },
       { auditActions := ["query_request", "query_execution", "query_cache_hit"] }) ∧
    ({ cached with is_cached := true } : QueryResponseM).is_cached = true ∧
    (pipeline env).2.execCalls = [] ∧
    (pipeline env).2.engineDispatches = [] ∧
    (pipeline env).2.healerCalls = [] ∧
    (pipeline env).2.cacheSets = [] ∧
    (∀ md5hex ds s1 s2, strTrim s1 = strTrim s2 →
      generate_key md5hex ds s1 = generate_key md5hex ds s2) := by
  have hmain := pipeline_cache_hit env cached hg hc
  refine ⟨hmain, rfl, by rw [hmain], by rw [hmain], by rw [hmain], by rw [hmain], ?_⟩
  intro md5hex ds s1 s2 h12
  unfold generate_key
  rw [h12]

/-- Witness for C8 at a warm cache. -/
theorem c8_cache_hit_bypasses_execution_witness :
    pipeline { baseEnv with cacheGet := some cachedResp } =
      (PipelineResult.response { cachedResp with is_cached := true },
       { auditActions := ["query_request", "query_execution", "query_cache_hit"] }) ∧
    ({ cachedResp with is_cached := true } : QueryResponseM).is_cached = true ∧
    (pipeline { baseEnv with cacheGet := some cachedResp }).2.execCalls = [] ∧
    (pipeline { baseEnv with cacheGet := some cachedResp }).2.engineDispatches = [] ∧
    (pipeline { baseEnv with cacheGet := some cachedResp }).2.healerCalls = [] ∧
    (pipeline { baseEnv with cacheGet := some cachedResp }).2.cacheSets = [] ∧
    (∀ md5hex ds s1 s2, strTrim s1 = strTrim s2 →
      generate_key md5hex ds s1 = generate_key md5hex ds s2) :=
  c8_cache_hit_bypasses_execution { baseEnv with cacheGet := some cachedResp } cachedResp
    (by decide) rfl

/-- Claim C9: when the embedding/vector-search oracle raises, or yields no
relevant table names, the relevance filter of `generate_sql` silently keeps
the full schema text and full table list for the provider prompt. -/
theorem c9_relevance_filter_falls_back (searchOracle : Except String (List SearchResult))
    (schema_info : String) (table_names : List String)
    (h : (∃ e, searchOracle = Except.error e) ∨
      get_relevant_table_names searchOracle = []) :
    llmFilterSchema searchOracle schema_info table_names true = (schema_info, table_names) := by
  have hnil : get_relevant_table_names searchOracle = [] := by
    rcases h with ⟨e, he⟩ | h
    · rw [he]
      rfl
    · exact h
  simp [llmFilterSchema, hnil]

/-- Witness for C9: a failed embedding lookup leaves the prompt schema
untouched. -/
theorem c9_relevance_filter_falls_back_witness :
    llmFilterSchema (Except.error "embedding service down")
      "Table: users\n\nTable: orders" ["users", "orders"] true =
      ("Table: users\n\nTable: orders", ["users", "orders"]) :=
  c9_relevance_filter_falls_back (Except.error "embedding service down")
    "Table: users\n\nTable: orders" ["users", "orders"] (Or.inl ⟨"embedding service down", rfl⟩)
